import Mathlib

/-!
Verification of the activitynet-captions training pipeline
(`dataset/activitynet_train.py`, `dataset/activitynet_captions.py`,
`train/train.py`) by a shallow embedding of its data model and
operations in Lean 4.

Python integers are `Int`/`Nat`; Python floats appearing in the
annotation arithmetic are modelled as `Rat`; the filesystem is an
existence predicate `String → Bool`; decoded images are identified by
their file paths; tensors are tracked by their shapes.
-/

/-- Python exception classes that the embedded code can raise. -/
inductive PyErr where
  | valueError : PyErr
  | nameError : String → PyErr
  | typeError : PyErr
  | keyError : PyErr
  | indexError : PyErr
deriving DecidableEq, Repr

/-- Python `int(q)` on a number: truncation toward zero. -/
def pyInt (q : Rat) : Int := if 0 ≤ q then q.floor else -((-q).floor)

/-- Python builtin `max` on two integers (the first argument on a tie). -/
def pyMax (a b : Int) : Int := if a < b then b else a

/-- Python builtin `min` on two integers (the first argument on a tie). -/
def pyMin (a b : Int) : Int := if b < a then b else a

/-- Python `str.format` field `{:0Nd}`: decimal with leading zeros to
the given width, the sign counting toward the width. -/
def pyFormat0d (width : Nat) (n : Int) : String :=
  if 0 ≤ n then
    let s := toString n.toNat
    String.mk (List.replicate (width - s.length) '0') ++ s
  else
    let s := toString (-n).toNat
    "-" ++ (String.mk (List.replicate (width - 1 - s.length) '0') ++ s)

/-- Python `os.path.join(a, b)` for a relative second component. -/
def pathJoin (a b : String) : String := a ++ "/" ++ b

/-- Python `str.strip()` with no argument: removes leading and
trailing whitespace. -/
def pyStrip (s : String) : String :=
  String.mk ((((s.data.dropWhile Char.isWhitespace).reverse).dropWhile
    Char.isWhitespace).reverse)

/-- Python `list(range(a, b))`. -/
def pyRange (a b : Int) : List Int :=
  (List.range (b - a).toNat).map (fun j => a + Int.ofNat j)

/-- Python `np.random.randint(lo, hi)`: raises `ValueError` when the
interval is empty, otherwise returns `lo + x % (hi - lo)` where `x`
abstracts the generator output. -/
def npRandint (x : Nat) (lo hi : Nat) : Except PyErr Nat :=
  if lo < hi then .ok (lo + x % (hi - lo)) else .error .valueError

/-- Shape of a rank-4 tensor. -/
structure Shape4 where
  d0 : Nat
  d1 : Nat
  d2 : Nat
  d3 : Nat
deriving DecidableEq, Repr

/-- Shape of a rank-3 image tensor (C, H, W). -/
structure ImgShape where
  c : Nat
  h : Nat
  w : Nat
deriving DecidableEq, Repr

/-- Shape behaviour of `torch.stack(clip, 0)` on a list of rank-3
tensors: fails (raises) on an empty list or on ragged shapes,
otherwise prepends the list length as dimension 0. -/
def torchStack : List ImgShape → Option Shape4
  | [] => none
  | s :: rest =>
      if rest.all (fun x => x = s) then some ⟨rest.length + 1, s.c, s.h, s.w⟩
      else none

/-- Shape behaviour of `.permute(1, 0, 2, 3)`. -/
def permute1023 (s : Shape4) : Shape4 := ⟨s.d1, s.d0, s.d2, s.d3⟩

namespace Train
/-!
Embedding of `dataset/activitynet_train.py`.
-/

/-- Frame-file path `os.path.join(video_dir_path, 'image_{:05d}.jpg'.format(i))`. -/
def framePath (dir : String) (i : Int) : String :=
  pathJoin dir ("image_" ++ pyFormat0d 5 i ++ ".jpg")

/-- The frame loader `video_loader`: walks the indices in order,
appending the decoded image while the frame file exists, and returns
the collected list at the first missing file. `α` is the image type
produced by `image_loader`. -/
def video_loader {α : Type} (fs : String → Bool) (image_loader : String → α)
    (video_dir_path : String) : List Int → List α
  | [] => []
  | i :: rest =>
      if fs (framePath video_dir_path i) then
        image_loader (framePath video_dir_path i) ::
          video_loader fs image_loader video_dir_path rest
      else []

/-- One video's record as built by `ActivityNetCaptions_Train.__init__`. -/
structure VideoRecord where
  id : String
  duration : Nat
  sentences : List String
  timestamps : List (Int × Int)
  fps : Rat
deriving DecidableEq, Repr

/-- One annotation object of the JSON file, as consumed by `__init__`:
the `fps` key may be absent. -/
structure AnnObj where
  fps : Option Rat
  sentences : List String
  timestamps : List (Rat × Rat)
deriving DecidableEq, Repr

/-- Timestamp conversion of `__init__`: each `[start_sec, end_sec]`
pair becomes `[max(1, int(start*fps)), min(lastframenum, int(end*fps))]`. -/
def mkTimestamps (fps : Rat) (lastframenum : Nat) (ts : List (Rat × Rat)) :
    List (Int × Int) :=
  ts.map (fun t =>
    (pyMax 1 (pyInt (t.1 * fps)), pyMin (lastframenum : Int) (pyInt (t.2 * fps))))

/-- Record construction of `__init__` for one annotation entry:
entries without an `fps` key or with no sentence are skipped
(`continue`), the rest yield a `VideoRecord` whose duration is the
number of the last frame file on disk. -/
def mkRecord (id : String) (obj : AnnObj) (lastframenum : Nat) : Option VideoRecord :=
  match obj.fps with
  | none => none
  | some fps =>
      if obj.sentences.length < 1 then none
      else some
        { id := id
          duration := lastframenum
          sentences := obj.sentences.map pyStrip
          timestamps := mkTimestamps fps lastframenum obj.timestamps
          fps := fps }

/-- One candidate of `__getitem__`: sentence, timestamp pair, frame-index list. -/
def Cand : Type := String × (Int × Int) × List Int

instance : DecidableEq Cand := by unfold Cand; infer_instance

instance : Inhabited Cand := ⟨("", (0, 0), [])⟩

/-- The candidate-building loop of `__getitem__`: enumerate the
zipped sentence/timestamp lists, break when the counter reaches
`n_actions`, keep segments with `timestamp[0] < timestamp[1]` and
attach `list(range(timestamp[0], timestamp[1]))`. -/
def buildCandidatesAux (nActions : Nat) : Nat → List (String × (Int × Int)) → List Cand
  | _, [] => []
  | num, (s, t) :: rest =>
      if num = nActions then []
      else if t.1 < t.2 then
        (s, t, pyRange t.1 t.2) :: buildCandidatesAux nActions (num + 1) rest
      else buildCandidatesAux nActions (num + 1) rest

/-- Candidate lists built at the top of `__getitem__`. -/
def buildCandidates (r : VideoRecord) (nActions : Nat) : List Cand :=
  buildCandidatesAux nActions 0 (r.sentences.zip r.timestamps)

/-- One iteration body of the `while True` loop after the random draw:
optional temporal transform on the frame indices, frame loading,
optional spatial transform (randomized once per attempt, `k` indexing
the attempt), `torch.stack(clip, 0).permute(1, 0, 2, 3)` and the
`clip.size(1) == sample_duration` assertion. `none` is any exception
caught by the bare `except:` (stack failure — including the
`TypeError` of stacking raw PIL images when no spatial transform is
configured — or a failed assertion), which makes the loop retry. -/
def attemptClip (fs : String → Bool) (spt : Option (Nat → String → ImgShape))
    (tt : Option (List Int → List Int)) (dir : String) (sampleDuration : Nat)
    (fidlist : List (List Int)) (k a : Nat) : Option Shape4 :=
  let fi := fidlist.getD a []
  let fi := match tt with
    | some f => f fi
    | none => fi
  let clip := video_loader fs (fun p => p) dir fi
  match spt with
  | none => none
  | some f =>
      let shapes := clip.map (f k)
      match torchStack shapes with
      | none => none
      | some s =>
          let p := permute1023 s
          if p.d1 = sampleDuration then some p else none

/-- The `while True` retry loop of `__getitem__`, with explicit fuel
(`none` = the loop has not terminated within the fuel): draw
`np.random.randint(0, len(sentences))` — its `ValueError` on an empty
candidate list is raised outside the `try` block and so propagates —
then run the attempt, breaking on success and retrying with the next
draw on a caught failure. `rng k` abstracts the k-th generator output. -/
def getitemLoop (attempt : Nat → Nat → Option Shape4) (rng : Nat → Nat)
    (ncand : Nat) : Nat → Nat → Option (Except PyErr (Nat × Shape4))
  | 0, _ => none
  | fuel + 1, k =>
      match npRandint (rng k) 0 ncand with
      | .error e => some (.error e)
      | .ok a =>
          match attempt k a with
          | some s => some (.ok (a, s))
          | none => getitemLoop attempt rng ncand fuel (k + 1)

/-- The returned dictionary of `__getitem__` (the clip by its shape). -/
structure Sample where
  id : String
  duration : Nat
  sentence : String
  timestamp : Int × Int
  fps : Rat
  clip : Shape4
deriving DecidableEq, Repr

/-- Full model of `ActivityNetCaptions_Train.__getitem__` on the
record at the accessed index. -/
def getitem (fs : String → Bool) (rng : Nat → Nat)
    (spt : Option (Nat → String → ImgShape)) (tt : Option (List Int → List Int))
    (frmPath : String) (sampleDuration nActions : Nat) (r : VideoRecord)
    (fuel : Nat) : Option (Except PyErr Sample) :=
  let cands := buildCandidates r nActions
  let dir := pathJoin frmPath r.id
  match getitemLoop
      (attemptClip fs spt tt dir sampleDuration (cands.map (fun c => c.2.2)))
      rng cands.length fuel 0 with
  | none => none
  | some (.error e) => some (.error e)
  | some (.ok (a, s)) =>
      some (.ok
        { id := r.id
          duration := r.duration
          sentence := (cands.getD a default).1
          timestamp := (cands.getD a default).2.1
          fps := r.fps
          clip := s })

end Train

namespace Captions
/-!
Embedding of `dataset/activitynet_captions.py`.
-/

/-- Frame-file path `os.path.join(video_dir_path, '{:06d}.jpg'.format(i))`. -/
def framePath (dir : String) (i : Int) : String :=
  pathJoin dir (pyFormat0d 6 i ++ ".jpg")

/-- The frame loader `video_loader` of this file: same early-return
policy as the training variant, with the six-digit filename format. -/
def video_loader {α : Type} (fs : String → Bool) (image_loader : String → α)
    (video_dir_path : String) : List Int → List α
  | [] => []
  | i :: rest =>
      if fs (framePath video_dir_path i) then
        image_loader (framePath video_dir_path i) ::
          video_loader fs image_loader video_dir_path rest
      else []

/-- Python dict assignment `key2id[videoid] = index` on a dictionary
modelled as a lookup function. -/
def dictInsert (m : String → Option Nat) (p : Nat × String) : String → Option Nat :=
  fun k => if k = p.2 then some p.1 else m k

/-- The function `id_loader` on the decoded id list: strips the first
two characters of every id (`id[2:]`) and builds the reverse
dictionary by enumeration, later entries overwriting earlier ones. -/
def id_loader (ids : List String) : List String × (String → Option Nat) :=
  let id2key := ids.map (fun id => id.drop 2)
  let key2id := id2key.enum.foldl dictInsert (fun _ => none)
  (id2key, key2id)

/-- Contents of the single dict value manipulated by `preprocess`;
`tmp = \x7b\x7d` starts with every key absent. -/
structure RecordDict where
  video_id : Option String := none
  framerate : Option Rat := none
  num_frames : Option Nat := none
  width : Option Nat := none
  height : Option Nat := none
  regions : Option (List (Int × Int)) := none
  captions : Option (List String) := none
  segments : Option Nat := none
deriving DecidableEq, Repr

/-- One entry of the metadata list consumed by `preprocess`. -/
structure MetaEntry where
  video_id : String
  framerate : Rat
  num_frames : Nat
  width : Nat
  height : Nat
deriving DecidableEq, Repr

/-- One annotation object of `predata`; its `video_id` key may be
absent (its absence raises `KeyError`, caught by the loop). -/
structure PredataObj where
  video_id : Option String
  timestamps : List (Rat × Rat)
  captions : List String
deriving DecidableEq, Repr

/-- First loop of `preprocess`. The source allocates `tmp = \x7b\x7d` once
before this loop and never rebinds it, so the heap holds exactly one
dict: the state carries that dict's value (`tmp`) and `data` stores
`some 0`, the address of `tmp`, for every assigned slot. The `idx =
key2idx[obj['video_id']]` lookup is outside any handler, so a missing
key raises; so does an out-of-range list assignment. -/
def preprocessLoop1 (key2idx : String → Option Nat) :
    List MetaEntry → RecordDict → List (Option Nat) →
    Except PyErr (RecordDict × List (Option Nat))
  | [], tmp, data => .ok (tmp, data)
  | obj :: rest, tmp, data =>
      match key2idx obj.video_id with
      | none => .error .keyError
      | some idx =>
          if idx < data.length then
            preprocessLoop1 key2idx rest
              { tmp with
                video_id := some obj.video_id
                framerate := some obj.framerate
                num_frames := some obj.num_frames
                width := some obj.width
                height := some obj.height }
              (data.set idx (some 0))
          else .error .indexError

/-- Second loop of `preprocess`: the `try`/`except KeyError` catches a
missing `video_id` key or an id absent from `key2idx` (`continue`);
reading `data[idx]['framerate']` when `data[idx]` is still `None`
raises `TypeError` outside any handler. Region bounds are converted by
`int(ts*fps)` and written through the stored address into the single
shared dict. -/
def preprocessLoop2 (key2idx : String → Option Nat) :
    List (String × PredataObj) → RecordDict → List (Option Nat) →
    Except PyErr (RecordDict × List (Option Nat))
  | [], tmp, data => .ok (tmp, data)
  | (_, obj) :: rest, tmp, data =>
      match obj.video_id with
      | none => preprocessLoop2 key2idx rest tmp data
      | some vid =>
          match key2idx vid with
          | none => preprocessLoop2 key2idx rest tmp data
          | some idx =>
              match data.get? idx with
              | none => .error .indexError
              | some none => .error .typeError
              | some (some _) =>
                  match tmp.framerate with
                  | none => .error .keyError
                  | some fps =>
                      let regs := obj.timestamps.map
                        (fun region => (pyInt (region.1 * fps), pyInt (region.2 * fps)))
                      preprocessLoop2 key2idx rest
                        { tmp with
                          regions := some regs
                          captions := some obj.captions
                          segments := some regs.length }
                        data
/-- The function `preprocess`: `data = [None] * vidnum`, one dict
allocation `tmp = \x7b\x7d`, then the two loops. Returns the final heap cell
(the value of `tmp`) and the address list `data`. -/
def preprocess (predata : List (String × PredataObj)) (metadata : List MetaEntry)
    (vidnum : Nat) (key2idx : String → Option Nat) :
    Except PyErr (RecordDict × List (Option Nat)) :=
  match preprocessLoop1 key2idx metadata {} (List.replicate vidnum none) with
  | .error e => .error e
  | .ok (tmp, data) => preprocessLoop2 key2idx predata tmp data

/-- The list the caller observes: each stored address dereferenced
through the heap (every stored address is that of `tmp`). -/
def preprocessView (predata : List (String × PredataObj)) (metadata : List MetaEntry)
    (vidnum : Nat) (key2idx : String → Option Nat) :
    Except PyErr (List (Option RecordDict)) :=
  match preprocess predata metadata vidnum key2idx with
  | .error e => .error e
  | .ok (tmp, data) => .ok (data.map (fun a => a.map (fun _ => tmp)))

/-- Local names in scope at the `self.loader(path, frame_indices)`
call of `ActivityNetCaptions.__getitem__`: the two parameters and the
three names assigned earlier in the body. The module defines no global
named `path` either (the `path` occurrences elsewhere in the file are
parameters of other functions). -/
def getitemLocals : List String := ["self", "index", "id", "num_frames", "frame_indices"]

/-- Python name resolution of a bare identifier against a scope. -/
def resolveName (scope : List String) (n : String) : Except PyErr Unit :=
  if n ∈ scope then .ok () else .error (.nameError n)

/-- Model of `ActivityNetCaptions.__getitem__`: record lookup
(`data[index]` may be out of range or still `None`), the two field
reads, `frame_indices = list(range(num_frames))`, optional temporal
transform, then the loader call whose first argument is the name
`path`. Were that name resolvable, the call itself would raise
`TypeError`, because `self.loader` holds the factory
`get_default_video_loader` unapplied (line 181 stores `get_loader`
without calling it) and that factory takes no arguments. -/
def getitem (data : List (Option RecordDict)) (tt : Option (List Int → List Int))
    (index : Nat) : Except PyErr (Shape4 × RecordDict) :=
  match data.get? index with
  | none => .error .indexError
  | some none => .error .typeError
  | some (some d) =>
      match d.video_id, d.num_frames with
      | some _, some num_frames =>
          let frame_indices := (List.range num_frames).map (fun n => (n : Int))
          let _ := match tt with
            | some f => f frame_indices
            | none => frame_indices
          match resolveName getitemLocals "path" with
          | .error e => .error e
          | .ok _ => .error .typeError
      | _, _ => .error .keyError

end Captions

namespace TrainMain
/-!
Embedding of the orchestration prologue of `train/train.py`
(checkpoint-path construction, the resume fallback, the startup
precondition check and the epoch iteration space).
-/

/-- The command-line arguments relevant to resume and startup. -/
structure Args where
  model_path : String
  cnnmethod : String
  rnnmethod : String
  num_layers : Nat
  lstm_stacks : Nat
  bs : Nat
  imsize : Nat
  clip_len : Nat
  start_from_ep : Nat
  max_epochs : Nat
deriving DecidableEq, Repr

/-- Checkpoint directory
`os.path.join(model_path, "{}_{}".format(method, param), "b{:03d}_s{:03d}_l{:03d}".format(bs, imsize, clip_len))`. -/
def ckptDir (modelPath method : String) (param bs imsize clipLen : Nat) : String :=
  pathJoin (pathJoin modelPath (method ++ "_" ++ toString param))
    ("b" ++ pyFormat0d 3 (bs : Int) ++ "_s" ++ pyFormat0d 3 (imsize : Int)
      ++ "_l" ++ pyFormat0d 3 (clipLen : Int))

/-- Checkpoint filename `"ep{:04d}.ckpt".format(ep)`. -/
def ckptFile (ep : Nat) : String := "ep" ++ pyFormat0d 4 (ep : Int) ++ ".ckpt"

/-- Encoder checkpoint path for a given epoch number. -/
def encModelPath (a : Args) (ep : Nat) : String :=
  pathJoin (ckptDir a.model_path a.cnnmethod a.num_layers a.bs a.imsize a.clip_len)
    (ckptFile ep)

/-- Decoder checkpoint path for a given epoch number. -/
def decModelPath (a : Args) (ep : Nat) : String :=
  pathJoin (ckptDir a.model_path a.rnnmethod a.lstm_stacks a.bs a.imsize a.clip_len)
    (ckptFile ep)

/-- Outcome of the resume block: which sub-models got weights loaded,
the effective start epoch, and whether the fallback warning was
printed. -/
structure ResumeResult where
  loadedEncoder : Bool
  loadedDecoder : Bool
  offset : Nat
  warned : Bool
deriving DecidableEq, Repr

/-- The resume block (`offset = args.start_from_ep; if offset != 0: ...`):
when both checkpoint files exist both state dicts are loaded, otherwise
the offset is reset to 0 and a warning is printed; no branch raises. -/
def resume (fs : String → Bool) (a : Args) : ResumeResult :=
  let offset := a.start_from_ep
  if offset ≠ 0 then
    if fs (encModelPath a offset) && fs (decModelPath a offset) then
      ⟨true, true, offset, false⟩
    else ⟨false, false, 0, true⟩
  else ⟨false, false, offset, false⟩

/-- The startup precondition `assert args.max_epochs > offset` placed
after the resume block, and on success the epoch iteration space
`range(offset, args.max_epochs)` of the training loop. -/
def trainingStart (fs : String → Bool) (a : Args) : Except String (List Nat) :=
  let res := resume fs a
  if a.max_epochs > res.offset then
    .ok ((List.range (a.max_epochs - res.offset)).map (fun i => res.offset + i))
  else .error "already at offset epoch number, aborting training"

end TrainMain

/-!
Theorems. Helper lemmas come first, then one theorem per claim with
its witness or counterexample.
-/

/-- Batteries' `Rat.floor` agrees with the floor of Mathlib's
`FloorRing` instance on `ℚ` (the instance is built from it). -/
theorem ratFloor_eq_intFloor (q : Rat) : q.floor = ⌊q⌋ := rfl

namespace Train

/-- The training-file frame loader returns the decoded images of the
longest prefix of indices whose files exist. -/
theorem video_loader_eq_takeWhile {α : Type} (fs : String → Bool) (im : String → α)
    (dir : String) : ∀ idx : List Int,
    video_loader fs im dir idx =
      (idx.takeWhile (fun i => fs (framePath dir i))).map (fun i => im (framePath dir i))
  | [] => rfl
  | i :: rest => by
      by_cases h : fs (framePath dir i) = true
      · simp [video_loader, List.takeWhile_cons, h,
          video_loader_eq_takeWhile fs im dir rest]
      · simp [video_loader, List.takeWhile_cons, Bool.of_not_eq_true h]

end Train

namespace Captions

/-- The captions-file frame loader returns the decoded images of the
longest prefix of indices whose files exist. -/
theorem video_loader_eq_takeWhile_captions {α : Type} (fs : String → Bool) (im : String → α)
    (dir : String) : ∀ idx : List Int,
    video_loader fs im dir idx =
      (idx.takeWhile (fun i => fs (framePath dir i))).map (fun i => im (framePath dir i))
  | [] => rfl
  | i :: rest => by
      by_cases h : fs (framePath dir i) = true
      · simp [video_loader, List.takeWhile_cons, h,
          video_loader_eq_takeWhile_captions fs im dir rest]
      · simp [video_loader, List.takeWhile_cons, Bool.of_not_eq_true h]

end Captions

/-- Claim C4: for every video directory and every index list, both
frame loaders return, in input order, the decoded images of the
longest prefix of the index list whose frame files all exist, stopping
at the first missing file; in particular, on indices `[1, 2, 3]` with
frame 3's file absent, the loader returns exactly the decoded images
of frames 1 and 2 in that order. -/
theorem claim_C4_frame_loader :
    (∀ (α : Type) (fs : String → Bool) (im : String → α) (dir : String) (idx : List Int),
      Train.video_loader fs im dir idx =
        (idx.takeWhile (fun i => fs (Train.framePath dir i))).map
          (fun i => im (Train.framePath dir i))) ∧
    (∀ (α : Type) (fs : String → Bool) (im : String → α) (dir : String) (idx : List Int),
      Captions.video_loader fs im dir idx =
        (idx.takeWhile (fun i => fs (Captions.framePath dir i))).map
          (fun i => im (Captions.framePath dir i))) ∧
    Train.video_loader (fun p => p != Train.framePath "d" 3) (fun p => p) "d" [1, 2, 3] =
      [Train.framePath "d" 1, Train.framePath "d" 2] :=
  ⟨fun _ => Train.video_loader_eq_takeWhile, fun _ => Captions.video_loader_eq_takeWhile_captions,
    by decide⟩

namespace Train

/-- Unfolding of the candidate-building loop: it processes exactly the
first `nActions - num` remaining segments, keeps those with
`start < end` and attaches their frame ranges. -/
theorem buildCandidatesAux_eq (nActions : Nat) :
    ∀ (l : List (String × (Int × Int))) (num : Nat), num ≤ nActions →
    buildCandidatesAux nActions num l =
      ((l.take (nActions - num)).filter (fun p => decide (p.2.1 < p.2.2))).map
        (fun p => (p.1, p.2, pyRange p.2.1 p.2.2))
  | [], num, _ => by simp [buildCandidatesAux]
  | (s, t) :: rest, num, hle => by
      by_cases h : num = nActions
      · subst h
        simp [buildCandidatesAux]
      · have hlt : num < nActions := lt_of_le_of_ne hle h
        have hsub : nActions - num = (nActions - (num + 1)) + 1 := by omega
        rw [buildCandidatesAux, if_neg h, hsub]
        by_cases ht : t.1 < t.2
        · simp [ht, List.filter_cons, buildCandidatesAux_eq nActions rest (num + 1) hlt]
        · simp [ht, List.filter_cons, buildCandidatesAux_eq nActions rest (num + 1) hlt]

end Train

/-- Claim C3: the candidate list of `__getitem__` consists of exactly
the segments among the first `n_samples_for_each_video` (in annotation
order, sentences and timestamps zipped positionally) whose start frame
is strictly below their end frame, each carrying the integer range
from start (inclusive) to end (exclusive); and membership in such a
range is exactly the interval condition. -/
theorem claim_C3_candidates (r : Train.VideoRecord) (n : Nat) :
    Train.buildCandidates r n =
      (((r.sentences.zip r.timestamps).take n).filter
          (fun p => decide (p.2.1 < p.2.2))).map
        (fun p => (p.1, p.2, pyRange p.2.1 p.2.2)) ∧
    ∀ a b x : Int, x ∈ pyRange a b ↔ a ≤ x ∧ x < b := by
  constructor
  · have h := Train.buildCandidatesAux_eq n (r.sentences.zip r.timestamps) 0 (Nat.zero_le n)
    simpa [Train.buildCandidates] using h
  · intro a b x
    simp only [pyRange, List.mem_map, List.mem_range, Int.ofNat_eq_natCast]
    constructor
    · rintro ⟨j, hj, rfl⟩
      omega
    · rintro ⟨ha, hb⟩
      exact ⟨(x - a).toNat, by omega, by omega⟩

/-- Claim C5: at construction every timestamp pair is converted to
`[max(1, int(start_sec*fps)), min(duration, int(end_sec*fps))]`, so
every record satisfies `start_frame >= 1` and `end_frame <= duration`;
and the annotation with fps 5.0, one sentence and timestamps
`[[2.0, 6.0]]` for a video of duration 40 yields the record with
timestamps `[[10, 30]]`. -/
theorem claim_C5_timestamp_conversion :
    (∀ (id : String) (obj : Train.AnnObj) (lfn : Nat) (r : Train.VideoRecord),
      Train.mkRecord id obj lfn = some r →
      (match obj.fps with
        | some fps => r.timestamps = Train.mkTimestamps fps lfn obj.timestamps
        | none => False) ∧
      ∀ p ∈ r.timestamps, 1 ≤ p.1 ∧ p.2 ≤ (lfn : Int)) ∧
    Train.mkRecord "v" ⟨some 5, ["a dog runs"], [(2, 6)]⟩ 40 =
      some ⟨"v", 40, ["a dog runs"], [(10, 30)], 5⟩ := by
  constructor
  · intro id obj lfn r h
    unfold Train.mkRecord at h
    match hfps : obj.fps with
    | none => rw [hfps] at h; cases h
    | some fps =>
        rw [hfps] at h
        dsimp only at h ⊢
        by_cases hs : obj.sentences.length < 1
        · rw [if_pos hs] at h; cases h
        · rw [if_neg hs] at h
          injection h with h
          subst h
          refine ⟨rfl, ?_⟩
          intro p hp
          simp only [Train.mkTimestamps, List.mem_map] at hp
          obtain ⟨t, -, rfl⟩ := hp
          constructor
          · simp only [pyMax]
            split <;> omega
          · simp only [pyMin]
            split <;> omega
  · have h2 : pyInt ((2 : Rat) * 5) = 10 := by
      norm_num [pyInt, ratFloor_eq_intFloor]
    have h6 : pyInt ((6 : Rat) * 5) = 30 := by
      norm_num [pyInt, ratFloor_eq_intFloor]
    simp only [Train.mkRecord, Train.mkTimestamps, List.map_cons, List.map_nil, h2, h6]
    norm_num [pyMax, pyMin, pyStrip]
    decide

/-- Closed instance of the general part of claim C5, at the record
produced by its concrete scenario. -/
theorem claim_C5_witness :
    (match (Train.AnnObj.mk (some 5) ["a dog runs"] [(2, 6)]).fps with
      | some fps =>
        (Train.VideoRecord.mk "v" 40 ["a dog runs"] [(10, 30)] 5).timestamps =
          Train.mkTimestamps fps 40 [(2, 6)]
      | none => False) ∧
    (1 ≤ (10 : Int) ∧ (30 : Int) ≤ (40 : Nat)) := by
  have h := claim_C5_timestamp_conversion.1 "v" ⟨some 5, ["a dog runs"], [(2, 6)]⟩ 40
    ⟨"v", 40, ["a dog runs"], [(10, 30)], 5⟩ claim_C5_timestamp_conversion.2
  exact ⟨h.1, h.2 (10, 30) (by simp)⟩

namespace Train

/-- A successful attempt of the retry loop always carries a stacked
clip whose dimension 1 equals the configured sample duration. -/
theorem attemptClip_d1 (fs : String → Bool) (spt : Option (Nat → String → ImgShape))
    (tt : Option (List Int → List Int)) (dir : String) (sd : Nat)
    (fidlist : List (List Int)) (k a : Nat) (s : Shape4)
    (h : attemptClip fs spt tt dir sd fidlist k a = some s) : s.d1 = sd := by
  simp only [attemptClip] at h
  split at h
  · exact absurd h (by simp)
  · split at h
    · exact absurd h (by simp)
    · split at h
      · injection h with h
        subst h
        assumption
      · exact absurd h (by simp)

/-- A terminating run of the retry loop that returns a clip obtained
it from a successful attempt. -/
theorem getitemLoop_ok (attempt : Nat → Nat → Option Shape4) (rng : Nat → Nat)
    (ncand : Nat) : ∀ (fuel k : Nat) (a : Nat) (s : Shape4),
    getitemLoop attempt rng ncand fuel k = some (.ok (a, s)) →
    ∃ j, attempt j a = some s
  | 0, _, _, _, h => by cases h
  | fuel + 1, k, a, s, h => by
      simp only [getitemLoop] at h
      split at h
      · injection h with h
        cases h
      · rename_i a' heq
        split at h
        · rename_i s' hatt
          injection h with h
          injection h with h
          injection h with h1 h2
          subst h1
          subst h2
          exact ⟨k, hatt⟩
        · exact getitemLoop_ok attempt rng ncand fuel (k + 1) a s h

end Train

/-- Claim C1: for an accessed record with a non-empty candidate list,
whenever `__getitem__` returns a Sample its clip's dimension 1 (the
temporal dimension after stacking and permuting to (C, T, H, W))
equals the configured sample duration; and an attempt whose stacking
or dimension check fails makes the loop retry with the next random
draw instead of returning. -/
theorem claim_C1_clip_duration (fs : String → Bool) (rng : Nat → Nat)
    (spt : Option (Nat → String → ImgShape)) (tt : Option (List Int → List Int))
    (frmPath : String) (sd nA : Nat) (r : Train.VideoRecord)
    (hne : Train.buildCandidates r nA ≠ []) :
    (∀ (fuel : Nat) (sm : Train.Sample),
      Train.getitem fs rng spt tt frmPath sd nA r fuel = some (.ok sm) →
      sm.clip.d1 = sd) ∧
    (∀ (fuel k a : Nat),
      npRandint (rng k) 0 (Train.buildCandidates r nA).length = .ok a →
      Train.attemptClip fs spt tt (pathJoin frmPath r.id) sd
        ((Train.buildCandidates r nA).map (fun c => c.2.2)) k a = none →
      Train.getitemLoop
          (Train.attemptClip fs spt tt (pathJoin frmPath r.id) sd
            ((Train.buildCandidates r nA).map (fun c => c.2.2)))
          rng (Train.buildCandidates r nA).length (fuel + 1) k =
        Train.getitemLoop
          (Train.attemptClip fs spt tt (pathJoin frmPath r.id) sd
            ((Train.buildCandidates r nA).map (fun c => c.2.2)))
          rng (Train.buildCandidates r nA).length fuel (k + 1)) := by
  constructor
  · intro fuel sm h
    simp only [Train.getitem] at h
    split at h
    · cases h
    · cases h
    · rename_i a s heq
      injection h with h
      injection h with h
      subst h
      obtain ⟨j, hj⟩ := Train.getitemLoop_ok _ rng _ fuel 0 a s heq
      exact Train.attemptClip_d1 fs spt tt _ sd _ j a s hj
  · intro fuel k a h1 h2
    conv_lhs => rw [Train.getitemLoop]
    simp only [h1, h2]

/-- Closed instance of claim C1: a dataset access that succeeds on the
first draw, produced clip shape (3, 16, 224, 224) for sample duration
16. -/
theorem claim_C1_witness :
    Train.buildCandidates ⟨"v", 40, ["a"], [(1, 17)], 5⟩ 10 ≠ [] ∧
    (Train.Sample.mk "v" 40 "a" (1, 17) 5 ⟨3, 16, 224, 224⟩).clip.d1 = 16 := by
  have h := claim_C1_clip_duration (fun _ => true) (fun _ => 0)
    (some (fun _ _ => ⟨3, 224, 224⟩)) none "f" 16 10 ⟨"v", 40, ["a"], [(1, 17)], 5⟩
    (by decide)
  exact ⟨by decide, h.1 1 ⟨"v", 40, "a", (1, 17), 5, ⟨3, 16, 224, 224⟩⟩ rfl⟩

namespace Train

/-- A video all of whose segments have `start >= end` yields an empty
candidate list. -/
theorem buildCandidatesAux_nil (nActions : Nat) :
    ∀ (l : List (String × (Int × Int))) (num : Nat),
    (∀ p ∈ l, p.2.2 ≤ p.2.1) → buildCandidatesAux nActions num l = []
  | [], _, _ => rfl
  | (s, t) :: rest, num, h => by
      rw [buildCandidatesAux]
      have ht : t.2 ≤ t.1 := h (s, t) (List.mem_cons_self _ _)
      have hrest : ∀ p ∈ rest, p.2.2 ≤ p.2.1 := fun p hp => h p (List.mem_cons_of_mem _ hp)
      split
      · rfl
      · rw [if_neg (by omega), buildCandidatesAux_nil nActions rest (num + 1) hrest]

end Train

/-- Claim C2: if every segment of the accessed record has
`start_frame >= end_frame` the candidate list is empty, and the very
first random draw raises `ValueError`, which propagates out of the
retry loop (the access fails in one step for any remaining fuel, so
there is no infinite retry). -/
theorem claim_C2_empty_candidates (fs : String → Bool) (rng : Nat → Nat)
    (spt : Option (Nat → String → ImgShape)) (tt : Option (List Int → List Int))
    (frmPath : String) (sd nA : Nat) (r : Train.VideoRecord)
    (h : ∀ t ∈ r.timestamps, t.2 ≤ t.1) :
    Train.buildCandidates r nA = [] ∧
    ∀ fuel : Nat,
      Train.getitem fs rng spt tt frmPath sd nA r (fuel + 1) =
        some (.error .valueError) := by
  have hnil : Train.buildCandidates r nA = [] := by
    apply Train.buildCandidatesAux_nil
    intro p hp
    exact h p.2 (List.of_mem_zip hp).2
  refine ⟨hnil, fun fuel => ?_⟩
  simp [Train.getitem, hnil, Train.getitemLoop, npRandint]

/-- Closed instance of claim C2: a record whose only segment is
`(5, 3)` makes the access fail with `ValueError` at once. -/
theorem claim_C2_witness :
    Train.buildCandidates ⟨"v", 10, ["a"], [(5, 3)], 1⟩ 10 = [] ∧
    Train.getitem (fun _ => true) (fun _ => 0) (some (fun _ _ => ⟨3, 224, 224⟩)) none
      "f" 16 10 ⟨"v", 10, ["a"], [(5, 3)], 1⟩ 1 = some (.error .valueError) := by
  have h := claim_C2_empty_candidates (fun _ => true) (fun _ => 0)
    (some (fun _ _ => ⟨3, 224, 224⟩)) none "f" 16 10 ⟨"v", 10, ["a"], [(5, 3)], 1⟩
    (by decide)
  exact ⟨h.1, h.2 0⟩

/-- Arguments of the resume scenario: offset 5 requested, default
paths and sizes. -/
def argsResume : TrainMain.Args := ⟨"m", "resnet", "LSTM", 10, 3, 64, 224, 16, 5, 20⟩

/-- Filesystem of the resume scenario: only the epoch-3 checkpoints
exist on disk. -/
def fsEpoch3 : String → Bool :=
  fun p => p == TrainMain.encModelPath argsResume 3 || p == TrainMain.decModelPath argsResume 3

/-- Claim C6: with a positive requested offset, weights are loaded
into both sub-models exactly when both checkpoint files at the
deterministic path for that offset exist; when either is missing the
offset is reset to 0 with a warning and (for a positive epoch budget)
training still starts; and resume requested at offset 5 with only
epoch-3 checkpoints on disk falls back to epoch 0 with the warning. -/
theorem claim_C6_resume_fallback :
    (∀ (fs : String → Bool) (a : TrainMain.Args), a.start_from_ep ≠ 0 →
      (((TrainMain.resume fs a).loadedEncoder = true ∧
          (TrainMain.resume fs a).loadedDecoder = true) ↔
        (fs (TrainMain.encModelPath a a.start_from_ep) = true ∧
          fs (TrainMain.decModelPath a a.start_from_ep) = true)) ∧
      (¬(fs (TrainMain.encModelPath a a.start_from_ep) = true ∧
          fs (TrainMain.decModelPath a a.start_from_ep) = true) →
        TrainMain.resume fs a = ⟨false, false, 0, true⟩ ∧
        (0 < a.max_epochs → ∃ eps, TrainMain.trainingStart fs a = .ok eps))) ∧
    TrainMain.resume fsEpoch3 argsResume = ⟨false, false, 0, true⟩ := by
  constructor
  · intro fs a h
    by_cases hc : fs (TrainMain.encModelPath a a.start_from_ep) = true ∧
        fs (TrainMain.decModelPath a a.start_from_ep) = true
    · have hr : TrainMain.resume fs a = ⟨true, true, a.start_from_ep, false⟩ := by
        simp [TrainMain.resume, h, hc.1, hc.2]
      refine ⟨?_, fun hn => absurd hc hn⟩
      rw [hr]
      simp [hc.1, hc.2]
    · have hb : (fs (TrainMain.encModelPath a a.start_from_ep) &&
          fs (TrainMain.decModelPath a a.start_from_ep)) = false := by
        rcases Decidable.not_and_iff_or_not.mp hc with hf | hf
        · simp [Bool.of_not_eq_true hf]
        · simp [Bool.of_not_eq_true hf]
      have hr : TrainMain.resume fs a = ⟨false, false, 0, true⟩ := by
        simp [TrainMain.resume, h, hb]
      refine ⟨?_, fun _ => ⟨hr, fun hm => ?_⟩⟩
      · rw [hr]
        simp only [Bool.false_eq_true, false_and, false_iff]
        exact hc
      · refine ⟨(List.range a.max_epochs).map (fun i => 0 + i), ?_⟩
        simp [TrainMain.trainingStart, hr, hm]
  · decide

/-- Closed instance of the general part of claim C6, at the concrete
resume scenario (offset 5 requested, only epoch-3 checkpoints on
disk). -/
theorem claim_C6_witness :
    TrainMain.resume fsEpoch3 argsResume = ⟨false, false, 0, true⟩ ∧
    ∃ eps, TrainMain.trainingStart fsEpoch3 argsResume = .ok eps := by
  have h := (claim_C6_resume_fallback.1 fsEpoch3 argsResume (by decide)).2 (by decide)
  exact ⟨h.1, h.2 (by decide)⟩

/-- Arguments of the C7 counterexample: offset 5 requested with an
epoch budget of only 3. -/
def argsOffset5 : TrainMain.Args := ⟨"m", "resnet", "LSTM", 10, 3, 64, 224, 16, 5, 3⟩

/-- Filesystem with no checkpoint files at all. -/
def fsEmpty : String → Bool := fun _ => false

/-- Counterexample to claim C7: with `max_epochs = 3 <= 5 =
start_offset` but no checkpoint files on disk, the resume fallback
resets the offset to 0 first, the startup assertion `max_epochs >
offset` then passes, and training runs epochs 0, 1, 2 instead of
aborting. -/
theorem claim_C7_counterexample :
    argsOffset5.max_epochs ≤ argsOffset5.start_from_ep ∧
    TrainMain.trainingStart fsEmpty argsOffset5 = .ok [0, 1, 2] :=
  ⟨by decide, rfl⟩

/-- Claim C7 (amended): the startup assertion compares `max_epochs`
with the effective offset after the resume fallback. Training aborts
before any epoch work whenever `max_epochs` is at most that effective
offset; in particular `max_epochs <= start_offset` aborts when the
offset survives resume (offset 0, or both checkpoint files present),
but when the offset is positive and either checkpoint file is missing
the offset is reset to 0 and startup aborts exactly when
`max_epochs = 0`. -/
theorem claim_C7_amended (fs : String → Bool) (a : TrainMain.Args) :
    (a.max_epochs ≤ (TrainMain.resume fs a).offset →
      TrainMain.trainingStart fs a =
        .error "already at offset epoch number, aborting training") ∧
    ((a.start_from_ep = 0 ∨
        (fs (TrainMain.encModelPath a a.start_from_ep) = true ∧
          fs (TrainMain.decModelPath a a.start_from_ep) = true)) →
      a.max_epochs ≤ a.start_from_ep →
      TrainMain.trainingStart fs a =
        .error "already at offset epoch number, aborting training") ∧
    (a.start_from_ep ≠ 0 →
      ¬(fs (TrainMain.encModelPath a a.start_from_ep) = true ∧
          fs (TrainMain.decModelPath a a.start_from_ep) = true) →
      (TrainMain.trainingStart fs a =
          .error "already at offset epoch number, aborting training" ↔
        a.max_epochs = 0)) := by
  refine ⟨?_, ?_, ?_⟩
  · intro hle
    simp [TrainMain.trainingStart, Nat.not_lt.mpr hle]
  · intro hcase hle
    have hoff : (TrainMain.resume fs a).offset = a.start_from_ep := by
      rcases hcase with h0 | hc
      · simp [TrainMain.resume, h0]
      · by_cases hz : a.start_from_ep = 0
        · simp [TrainMain.resume, hz]
        · simp [TrainMain.resume, hz, hc.1, hc.2]
    simp [TrainMain.trainingStart, hoff, Nat.not_lt.mpr hle]
  · intro hz hc
    have hb : (fs (TrainMain.encModelPath a a.start_from_ep) &&
        fs (TrainMain.decModelPath a a.start_from_ep)) = false := by
      rcases Decidable.not_and_iff_or_not.mp hc with hf | hf
      · simp [Bool.of_not_eq_true hf]
      · simp [Bool.of_not_eq_true hf]
    have hoff : (TrainMain.resume fs a).offset = 0 := by
      simp [TrainMain.resume, hz, hb]
    constructor
    · intro he
      by_contra hm
      have hpos : 0 < a.max_epochs := Nat.pos_of_ne_zero hm
      simp [TrainMain.trainingStart, hoff, hpos] at he
    · intro hm
      simp [TrainMain.trainingStart, hoff, hm]

/-- Closed instance of claim C7 as amended: at offset 5 with an epoch
budget of 3 and no checkpoints on disk, startup does not abort. -/
theorem claim_C7_witness :
    TrainMain.trainingStart fsEmpty argsOffset5 ≠
      .error "already at offset epoch number, aborting training" := by
  have h := (claim_C7_amended fsEmpty argsOffset5).2.2 (by decide) (by decide)
  intro hc
  exact absurd (h.mp hc) (by decide)

/-- First metadata entry of the aliasing input: video "A". -/
def metaA : Captions.MetaEntry := ⟨"A", 1, 10, 4, 4⟩

/-- Second metadata entry of the aliasing input: video "B". -/
def metaB : Captions.MetaEntry := ⟨"B", 2, 20, 8, 8⟩

/-- Key-to-index mapping of the aliasing input. -/
def key2idxAB : String → Option Nat :=
  fun s => if s = "A" then some 0 else if s = "B" then some 1 else none

/-- The dict contents both slots end up referencing: the fields of the
last metadata entry, video "B". -/
def sharedDict : Captions.RecordDict :=
  { video_id := some "B", framerate := some 2, num_frames := some 20,
    width := some 8, height := some 8 }

/-- Claim C8 fails on the code: `preprocess` reuses the single dict
`tmp` across iterations, so both slots store the same address (0, the
lone allocation) and the caller observes two aliased records that both
hold the fields of the last metadata entry — record 0 does not hold
video "A"'s own video_id. -/
theorem claim_C8_preprocess_aliasing :
    Captions.preprocess [] [metaA, metaB] 2 key2idxAB = .ok (sharedDict, [some 0, some 0]) ∧
    Captions.preprocessView [] [metaA, metaB] 2 key2idxAB =
      .ok [some sharedDict, some sharedDict] ∧
    sharedDict.video_id = some "B" ∧ metaA.video_id = "A" :=
  ⟨rfl, rfl, rfl, rfl⟩

/-- Claim C9: the per-item access of the `ActivityNetCaptions` variant
reaches the loader call whose first argument is the name `path`, which
is not among the local names in scope there; so no access ever returns
an `(image, segments)` pair, and any access whose record lookups
succeed fails precisely with the undefined-name error on `path`. -/
theorem claim_C9_undefined_path :
    ("path" ∉ Captions.getitemLocals) ∧
    (∀ (data : List (Option Captions.RecordDict)) (tt : Option (List Int → List Int))
      (index : Nat) (res : Shape4 × Captions.RecordDict),
      Captions.getitem data tt index ≠ .ok res) ∧
    (∀ (data : List (Option Captions.RecordDict)) (tt : Option (List Int → List Int))
      (index : Nat) (d : Captions.RecordDict),
      data.get? index = some (some d) → d.video_id.isSome → d.num_frames.isSome →
      Captions.getitem data tt index = .error (.nameError "path")) := by
  refine ⟨by decide, ?_, ?_⟩
  · intro data tt index res
    unfold Captions.getitem
    split
    · exact fun h => by cases h
    · exact fun h => by cases h
    · split
      · split
        · exact fun h => by cases h
        · exact fun h => by cases h
      · exact fun h => by cases h
  · intro data tt index d hd hv hn
    obtain ⟨v, hv'⟩ := Option.isSome_iff_exists.mp hv
    obtain ⟨n, hn'⟩ := Option.isSome_iff_exists.mp hn
    unfold Captions.getitem
    rw [hd]
    dsimp only
    rw [hv', hn']
    rfl

/-- Closed instance of claim C9: a one-record dataset where the access
fails with the undefined-name error on `path`. -/
theorem claim_C9_witness :
    Captions.getitem [some ⟨some "abc", some 1, some 30, some 4, some 4, none, none, none⟩]
      none 0 = .error (.nameError "path") :=
  claim_C9_undefined_path.2.2
    [some ⟨some "abc", some 1, some 30, some 4, some 4, none, none, none⟩] none 0
    ⟨some "abc", some 1, some 30, some 4, some 4, none, none, none⟩ rfl rfl rfl

namespace Captions

/-- A fold of dict assignments leaves keys it never writes untouched. -/
theorem foldl_dictInsert_absent :
    ∀ (l : List (Nat × String)) (m : String → Option Nat) (k : String),
    (∀ p ∈ l, p.2 ≠ k) → (l.foldl dictInsert m) k = m k
  | [], _, _, _ => rfl
  | p :: rest, m, k, h => by
      rw [List.foldl_cons,
        foldl_dictInsert_absent rest (dictInsert m p) k
          (fun q hq => h q (List.mem_cons_of_mem _ hq))]
      simp only [dictInsert]
      rw [if_neg (fun hk => h p (List.mem_cons_self _ _) hk.symm)]

/-- On a duplicate-free list, the enumeration fold maps the element at
position `i` to `n + i`. -/
theorem foldl_dictInsert_enumFrom :
    ∀ (l : List String) (n : Nat) (m : String → Option Nat), l.Nodup →
    ∀ (i : Nat) (h : i < l.length),
    ((l.enumFrom n).foldl dictInsert m) (l.get ⟨i, h⟩) = some (n + i)
  | [], _, _, _, i, h => absurd h (Nat.not_lt_zero i)
  | a :: rest, n, m, hnd, 0, h => by
      have ha : a ∉ rest := (List.nodup_cons.mp hnd).1
      have : ((a :: rest).enumFrom n).foldl dictInsert m =
          (rest.enumFrom (n + 1)).foldl dictInsert (dictInsert m (n, a)) := rfl
      rw [List.get, this,
        foldl_dictInsert_absent (rest.enumFrom (n + 1)) (dictInsert m (n, a)) a
          (fun p hp hpa => by
            have hmem : p.2 ∈ rest := by
              have hm := List.mem_map_of_mem Prod.snd hp
              rwa [List.enumFrom_map_snd] at hm
            exact ha (hpa ▸ hmem))]
      simp [dictInsert]
  | a :: rest, n, m, hnd, i + 1, h => by
      have : ((a :: rest).enumFrom n).foldl dictInsert m =
          (rest.enumFrom (n + 1)).foldl dictInsert (dictInsert m (n, a)) := rfl
      rw [List.get, this,
        foldl_dictInsert_enumFrom rest (n + 1) (dictInsert m (n, a))
          (List.nodup_cons.mp hnd).2 i (Nat.lt_of_succ_lt_succ h)]
      congr 1
      omega

end Captions

/-- Claim C10: when the ids with their first two characters removed
are pairwise distinct, `id_loader` returns a list whose i-th entry is
the i-th input id minus its two-character head, and a dictionary
mapping that entry back to i. -/
theorem claim_C10_id_loader (ids : List String)
    (hnd : (ids.map (fun s => s.drop 2)).Nodup) (i : Nat) :
    ((Captions.id_loader ids).1.get? i = (ids.get? i).map (fun s => s.drop 2)) ∧
    (∀ key, (Captions.id_loader ids).1.get? i = some key →
      (Captions.id_loader ids).2 key = some i) := by
  constructor
  · simp [Captions.id_loader, List.get?_map]
  · intro key hkey
    simp only [Captions.id_loader] at hkey ⊢
    obtain ⟨hlt, hget⟩ := List.get?_eq_some.mp hkey
    rw [← hget]
    have h := Captions.foldl_dictInsert_enumFrom (ids.map (fun s => s.drop 2)) 0
      (fun _ => none) hnd i hlt
    rw [List.enum, h]
    simp

/-- Closed instance of claim C10 on the id list `["v_ab", "v_cd"]`. -/
theorem claim_C10_witness :
    (Captions.id_loader ["v_ab", "v_cd"]).1.get? 0 = some "ab" ∧
    (Captions.id_loader ["v_ab", "v_cd"]).2 "ab" = some 0 := by
  have h := claim_C10_id_loader ["v_ab", "v_cd"] (by decide) 0
  have h1 : (Captions.id_loader ["v_ab", "v_cd"]).1.get? 0 = some "ab" := by
    rw [h.1]
    decide
  exact ⟨h1, h.2 "ab" h1⟩
